import Mathlib

/-!
Verification of the gearman engine state interface (src/libgearman/state.h).

The C struct `gearman_state_st` is embedded as a Lean structure.  Pointer
fields (callback function pointers, opaque contexts, the poll buffer) are
modelled as abstract `Nat` handles, the connection and packet linked lists as
`List Nat` of handles, and the fixed-size `last_error` character array as a
`List Nat` of byte values whose length is the buffer capacity.  Each C
function that takes a `gearman_state_st *` is embedded as a function from the
state; read accessors return a pair of the C return value and the (unchanged)
state, so that frame properties are statable, and void mutators return the
new state.
-/

/-- Byte-capacity of the fixed `last_error` buffer.  Modelled from the spec:
the constant `GEARMAN_MAX_ERROR_SIZE` is referenced by state.h but its
definition is not among the shown sources; the spec describes the buffer as a
fixed-capacity text buffer of a few hundred bytes. -/
def GEARMAN_MAX_ERROR_SIZE : Nat := 1024

/-- The bit-field `options` block of `gearman_state_st` (state.h lines 26-31). -/
structure gearman_state_options where
  allocated : Bool
  dont_track_packets : Bool
  non_blocking : Bool
  stored_non_blocking : Bool
  deriving Repr, DecidableEq

/-- The engine structure `gearman_state_st` (state.h lines 24-51). -/
structure gearman_state_st where
  options : gearman_state_options
  verbose : Nat
  con_count : Nat
  packet_count : Nat
  pfds_size : Nat
  sending : Nat
  last_errno : Int
  timeout : Int
  con_list : List Nat
  packet_list : List Nat
  pfds : Nat
  log_fn : Nat
  log_context : Nat
  event_watch_fn : Nat
  event_watch_context : Nat
  workload_malloc_fn : Nat
  workload_malloc_context : Nat
  workload_free_fn : Nat
  workload_free_context : Nat
  last_error : List Nat
  deriving Repr, DecidableEq

/-- The option identifiers of `gearman_options_t`.  Modelled from the spec:
the enum's definition is not among the shown sources; the spec names the
independently settable flags `trackPackets` and `nonBlocking` (data model,
section 3). -/
inductive gearman_options_t where
  | GEARMAN_NON_BLOCKING
  | GEARMAN_DONT_TRACK_PACKETS
  deriving Repr, DecidableEq

/-- Return statuses relevant to option setting.  Modelled from the spec:
`setOption` returns a status distinguishing success from unknown option. -/
inductive gearman_return_t where
  | GEARMAN_SUCCESS
  | GEARMAN_INVALID_COMMAND
  deriving Repr, DecidableEq

/-- Reading of a C string out of a byte buffer: the bytes up to the first
zero byte. -/
def cstring (buf : List Nat) : List Nat := buf.takeWhile (fun b => b != 0)

/-- `gearman_state_error` (state.h lines 120-125): NULL when the first byte
of `last_error` is zero, otherwise a pointer to the buffer, read as the
C string it holds. -/
def gearman_state_error (gearman : gearman_state_st) :
    Option (List Nat) × gearman_state_st :=
  if gearman.last_error.headD 0 = 0 then (none, gearman)
  else (some (cstring gearman.last_error), gearman)

/-- `gearman_state_errno` (state.h lines 134-137). -/
def gearman_state_errno (gearman : gearman_state_st) : Int × gearman_state_st :=
  (gearman.last_errno, gearman)

/-- `gearman_set_option`.  Modelled from the spec: the body is not among the
shown sources (state.h line 147 only declares it); per section 4.2 it sets
the one named flag to the given value and returns a status distinguishing
success from unknown option (every member of the modelled enum is known). -/
def gearman_set_option (gearman : gearman_state_st) (option : gearman_options_t)
    (value : Bool) : gearman_return_t × gearman_state_st :=
  match option with
  | .GEARMAN_NON_BLOCKING =>
      (.GEARMAN_SUCCESS,
       { gearman with options := { gearman.options with non_blocking := value } })
  | .GEARMAN_DONT_TRACK_PACKETS =>
      (.GEARMAN_SUCCESS,
       { gearman with options := { gearman.options with dont_track_packets := value } })

/-- The flag of the engine designated by an option identifier. -/
def optionFlag (gearman : gearman_state_st) : gearman_options_t → Bool
  | .GEARMAN_NON_BLOCKING => gearman.options.non_blocking
  | .GEARMAN_DONT_TRACK_PACKETS => gearman.options.dont_track_packets

/-- `gearman_add_options` (state.h lines 152-155). -/
def gearman_add_options (gearman : gearman_state_st) (options : gearman_options_t) :
    gearman_state_st :=
  (gearman_set_option gearman options true).2

/-- `gearman_remove_options` (state.h lines 157-160): the body passes `true`,
exactly as `gearman_add_options` does. -/
def gearman_remove_options (gearman : gearman_state_st) (options : gearman_options_t) :
    gearman_state_st :=
  (gearman_set_option gearman options true).2

/-- `gearman_state_is_non_blocking` (state.h lines 162-165). -/
def gearman_state_is_non_blocking (gearman : gearman_state_st) :
    Bool × gearman_state_st :=
  (gearman.options.non_blocking, gearman)

/-- `gearman_state_is_stored_non_blocking` (state.h lines 167-170). -/
def gearman_state_is_stored_non_blocking (gearman : gearman_state_st) :
    Bool × gearman_state_st :=
  (gearman.options.stored_non_blocking, gearman)

/-- `gearman_state_push_non_blocking` (state.h lines 175-179). -/
def gearman_state_push_non_blocking (gearman : gearman_state_st) : gearman_state_st :=
  { gearman with
      options := { gearman.options with
                     stored_non_blocking := gearman.options.non_blocking,
                     non_blocking := true } }

/-- `gearman_state_pop_non_blocking` (state.h lines 181-184). -/
def gearman_state_pop_non_blocking (gearman : gearman_state_st) : gearman_state_st :=
  { gearman with
      options := { gearman.options with
                     non_blocking := gearman.options.stored_non_blocking } }

/-- `gearman_state_clone`.  Modelled from the spec: the body is not among the
shown sources (state.h line 90 only declares it).  Per sections 4.1-4.2 the
clone copies the source engine's configuration option flags, timeout,
verbosity threshold and callback registrations, and starts with empty
connection and packet collections; the `allocated` flag records whether the
new engine allocated its own backing storage (the `self_allocated` argument
stands for the NULL-ness of the caller-storage argument), not a value copied
from the source. -/
def gearman_state_clone (self_allocated : Bool) (source : gearman_state_st) :
    gearman_state_st :=
  { options := { allocated := self_allocated,
                 dont_track_packets := source.options.dont_track_packets,
                 non_blocking := source.options.non_blocking,
                 stored_non_blocking := source.options.stored_non_blocking },
    verbose := source.verbose,
    con_count := 0,
    packet_count := 0,
    pfds_size := 0,
    sending := 0,
    last_errno := 0,
    timeout := source.timeout,
    con_list := [],
    packet_list := [],
    pfds := 0,
    log_fn := source.log_fn,
    log_context := source.log_context,
    event_watch_fn := source.event_watch_fn,
    event_watch_context := source.event_watch_context,
    workload_malloc_fn := source.workload_malloc_fn,
    workload_malloc_context := source.workload_malloc_context,
    workload_free_fn := source.workload_free_fn,
    workload_free_context := source.workload_free_context,
    last_error := List.replicate GEARMAN_MAX_ERROR_SIZE 0 }

/-- The message text `gearman_state_set_error` renders into the buffer before
truncation: the origin label, a separating colon (byte 58), then the formatted
message; zero bytes cannot occur inside C strings, so they are filtered out of
the abstract byte lists. -/
def renderError (function message : List Nat) : List Nat :=
  (function ++ [58] ++ message).filter (fun b => b != 0)

/-- `gearman_state_set_error`.  Modelled from the spec: the body is not among
the shown sources (state.h lines 110-111 only declare it).  Per section 4.3
it renders a formatted message incorporating the origin label into the fixed
`last_error` buffer, truncating so that the text plus its terminating zero
byte never exceed the capacity; bytes of the buffer beyond the written
portion keep their previous values. -/
def gearman_state_set_error (gearman : gearman_state_st)
    (function message : List Nat) : gearman_state_st :=
  let written := (renderError function message).take (GEARMAN_MAX_ERROR_SIZE - 1) ++ [0]
  { gearman with
      last_error := written ++ gearman.last_error.drop written.length }

/-- Folding a sequence of `gearman_state_set_error` calls over an engine. -/
def runSetErrors (gearman : gearman_state_st)
    (calls : List (List Nat × List Nat)) : gearman_state_st :=
  calls.foldl (fun s c => gearman_state_set_error s c.1 c.2) gearman

/-- A freshly initialized engine, used to instantiate the universally
quantified theorems at a concrete state. -/
def initState : gearman_state_st :=
  { options := { allocated := false,
                 dont_track_packets := false,
                 non_blocking := false,
                 stored_non_blocking := false },
    verbose := 0,
    con_count := 0,
    packet_count := 0,
    pfds_size := 0,
    sending := 0,
    last_errno := 0,
    timeout := -1,
    con_list := [],
    packet_list := [],
    pfds := 0,
    log_fn := 0,
    log_context := 0,
    event_watch_fn := 0,
    event_watch_context := 0,
    workload_malloc_fn := 0,
    workload_malloc_context := 0,
    workload_free_fn := 0,
    workload_free_context := 0,
    last_error := List.replicate GEARMAN_MAX_ERROR_SIZE 0 }

/-! ### Helper lemmas -/

/-- Reading a C string out of a buffer that starts with a zero-free block
followed by a zero byte yields exactly that block, whatever follows. -/
theorem takeWhile_upto_zero (l r : List Nat) (h : ∀ b ∈ l, b ≠ 0) :
    (l ++ 0 :: r).takeWhile (fun b => b != 0) = l := by
  induction l with
  | nil => simp [List.takeWhile]
  | cons a t ih =>
      have ha : a ≠ 0 := h a (List.mem_cons_self a t)
      have ht : ∀ b ∈ t, b ≠ 0 := fun b hb => h b (List.mem_cons_of_mem a hb)
      have ha' : (a != 0) = true := by simpa using ha
      simp [List.takeWhile_cons, ha', ih ht]

/-- Every byte of the truncated rendered message is nonzero. -/
theorem renderError_take_nonzero (f m : List Nat) (n : Nat) :
    ∀ b ∈ (renderError f m).take n, b ≠ 0 := by
  intro b hb
  have hb' : b ∈ renderError f m := List.mem_of_mem_take hb
  have := (List.mem_filter.mp hb').2
  simpa using this

/-- After one `gearman_state_set_error` call, the stored C string is exactly
the truncated rendered message, independently of the previous buffer. -/
theorem set_error_cstring (g : gearman_state_st) (f m : List Nat) :
    cstring (gearman_state_set_error g f m).last_error
      = (renderError f m).take (GEARMAN_MAX_ERROR_SIZE - 1) := by
  unfold gearman_state_set_error cstring
  simp only []
  rw [List.append_assoc, List.singleton_append]
  exact takeWhile_upto_zero _ _ (renderError_take_nonzero f m _)

/-- One `gearman_state_set_error` call preserves the buffer capacity. -/
theorem set_error_length (g : gearman_state_st) (f m : List Nat)
    (h : g.last_error.length = GEARMAN_MAX_ERROR_SIZE) :
    (gearman_state_set_error g f m).last_error.length = GEARMAN_MAX_ERROR_SIZE := by
  have htake : ((renderError f m).take (GEARMAN_MAX_ERROR_SIZE - 1)).length
      ≤ GEARMAN_MAX_ERROR_SIZE - 1 := by
    simpa using List.length_take_le _ _
  unfold gearman_state_set_error
  simp only [List.length_append, List.length_drop, List.length_singleton, h]
  unfold GEARMAN_MAX_ERROR_SIZE at htake ⊢
  omega

/-- The terminating zero byte is present after one `gearman_state_set_error`
call. -/
theorem set_error_terminated (g : gearman_state_st) (f m : List Nat) :
    0 ∈ (gearman_state_set_error g f m).last_error := by
  unfold gearman_state_set_error
  simp

/-- A sequence of `gearman_state_set_error` calls preserves the buffer
capacity. -/
theorem runSetErrors_length (calls : List (List Nat × List Nat))
    (g : gearman_state_st) (h : g.last_error.length = GEARMAN_MAX_ERROR_SIZE) :
    (runSetErrors g calls).last_error.length = GEARMAN_MAX_ERROR_SIZE := by
  induction calls generalizing g with
  | nil => simpa [runSetErrors] using h
  | cons c rest ih =>
      have : runSetErrors g (c :: rest)
          = runSetErrors (gearman_state_set_error g c.1 c.2) rest := by
        simp [runSetErrors]
      rw [this]
      exact ih _ (set_error_length g c.1 c.2 h)

/-- Appending one call to a sequence of `gearman_state_set_error` calls. -/
theorem runSetErrors_append_single (g : gearman_state_st)
    (calls : List (List Nat × List Nat)) (f m : List Nat) :
    runSetErrors g (calls ++ [(f, m)])
      = gearman_state_set_error (runSetErrors g calls) f m := by
  simp [runSetErrors, List.foldl_append]

/-! ### Claim theorems -/

/-- C1: for every engine and for both starting values of the `non_blocking`
flag, `gearman_state_push_non_blocking` followed immediately by
`gearman_state_pop_non_blocking` leaves the engine's `non_blocking` flag
equal to its value before the push. -/
theorem push_then_pop_restores_non_blocking (g : gearman_state_st) :
    (gearman_state_pop_non_blocking
        (gearman_state_push_non_blocking g)).options.non_blocking
      = g.options.non_blocking := rfl

/-- C2: `gearman_remove_options` is behaviorally identical to
`gearman_add_options` (both call `gearman_set_option` with value `true`), so
it sets, rather than clears, the flag designated by the given option, for
every engine and every option. -/
theorem remove_options_eq_add_options (g : gearman_state_st)
    (opt : gearman_options_t) :
    gearman_remove_options g opt = gearman_add_options g opt ∧
    optionFlag (gearman_remove_options g opt) opt = true := by
  cases opt <;> exact ⟨rfl, rfl⟩

/-- C3: `gearman_state_error` returns the none sentinel (NULL) exactly when
the first byte of the stored `last_error` buffer is zero, and otherwise
returns the currently stored error message. -/
theorem state_error_none_iff_empty (g : gearman_state_st) :
    ((gearman_state_error g).1 = none ↔ g.last_error.headD 0 = 0) ∧
    (gearman_state_error g).1
      = (if g.last_error.headD 0 = 0 then none
         else some (cstring g.last_error)) := by
  unfold gearman_state_error
  split <;> simp_all

/-- C4: `gearman_state_push_non_blocking` saves the current `non_blocking`
flag into `stored_non_blocking`, sets `non_blocking` to true, and changes no
other field of the engine. -/
theorem push_non_blocking_spec (g : gearman_state_st) :
    (gearman_state_push_non_blocking g).options.stored_non_blocking
      = g.options.non_blocking ∧
    (gearman_state_push_non_blocking g).options.non_blocking = true ∧
    (gearman_state_push_non_blocking g).options.allocated
      = g.options.allocated ∧
    (gearman_state_push_non_blocking g).options.dont_track_packets
      = g.options.dont_track_packets ∧
    (gearman_state_push_non_blocking g).verbose = g.verbose ∧
    (gearman_state_push_non_blocking g).con_count = g.con_count ∧
    (gearman_state_push_non_blocking g).packet_count = g.packet_count ∧
    (gearman_state_push_non_blocking g).pfds_size = g.pfds_size ∧
    (gearman_state_push_non_blocking g).sending = g.sending ∧
    (gearman_state_push_non_blocking g).last_errno = g.last_errno ∧
    (gearman_state_push_non_blocking g).timeout = g.timeout ∧
    (gearman_state_push_non_blocking g).con_list = g.con_list ∧
    (gearman_state_push_non_blocking g).packet_list = g.packet_list ∧
    (gearman_state_push_non_blocking g).pfds = g.pfds ∧
    (gearman_state_push_non_blocking g).log_fn = g.log_fn ∧
    (gearman_state_push_non_blocking g).log_context = g.log_context ∧
    (gearman_state_push_non_blocking g).event_watch_fn = g.event_watch_fn ∧
    (gearman_state_push_non_blocking g).event_watch_context
      = g.event_watch_context ∧
    (gearman_state_push_non_blocking g).workload_malloc_fn
      = g.workload_malloc_fn ∧
    (gearman_state_push_non_blocking g).workload_malloc_context
      = g.workload_malloc_context ∧
    (gearman_state_push_non_blocking g).workload_free_fn
      = g.workload_free_fn ∧
    (gearman_state_push_non_blocking g).workload_free_context
      = g.workload_free_context ∧
    (gearman_state_push_non_blocking g).last_error = g.last_error :=
  ⟨rfl, rfl, rfl, rfl, rfl, rfl, rfl, rfl, rfl, rfl, rfl, rfl, rfl, rfl, rfl,
   rfl, rfl, rfl, rfl, rfl, rfl, rfl, rfl⟩

/-- C5: pushes do not nest beyond one level: after two consecutive
`gearman_state_push_non_blocking` calls the saved slot holds true, so a
subsequent `gearman_state_pop_non_blocking` leaves `non_blocking` true
regardless of the original value. -/
theorem double_push_pop_forces_non_blocking (g : gearman_state_st) :
    (gearman_state_push_non_blocking
        (gearman_state_push_non_blocking g)).options.stored_non_blocking
      = true ∧
    (gearman_state_pop_non_blocking
        (gearman_state_push_non_blocking
          (gearman_state_push_non_blocking g))).options.non_blocking = true :=
  ⟨rfl, rfl⟩

/-- C6: `gearman_state_errno` returns the stored `last_errno` value verbatim
and does not modify the engine. -/
theorem state_errno_verbatim (g : gearman_state_st) :
    (gearman_state_errno g).1 = g.last_errno ∧
    (gearman_state_errno g).2 = g :=
  ⟨rfl, rfl⟩

/-- C7: the read accessors `gearman_state_is_non_blocking`,
`gearman_state_is_stored_non_blocking`, `gearman_state_error` and
`gearman_state_errno` are pure reads: they return, respectively, the
`non_blocking` flag, the `stored_non_blocking` flag, the error text and the
error code, and leave the engine unchanged. -/
theorem read_accessors_pure (g : gearman_state_st) :
    (gearman_state_is_non_blocking g).1 = g.options.non_blocking ∧
    (gearman_state_is_non_blocking g).2 = g ∧
    (gearman_state_is_stored_non_blocking g).1
      = g.options.stored_non_blocking ∧
    (gearman_state_is_stored_non_blocking g).2 = g ∧
    (gearman_state_error g).1
      = (if g.last_error.headD 0 = 0 then none
         else some (cstring g.last_error)) ∧
    (gearman_state_error g).2 = g ∧
    (gearman_state_errno g).1 = g.last_errno ∧
    (gearman_state_errno g).2 = g := by
  refine ⟨rfl, rfl, rfl, rfl, ?_, ?_, rfl, rfl⟩ <;>
    unfold gearman_state_error <;> split <;> rfl

/-- C8: for every sequence of `gearman_state_set_error` calls on an engine
whose buffer has the fixed capacity, the stored `last_error` never exceeds
that capacity (terminator included), stays a validly terminated string, and
after the last call holds exactly that call's formatted message, truncated,
with no leakage from earlier calls. -/
theorem set_error_sequence_bounded_exact (g : gearman_state_st)
    (calls : List (List Nat × List Nat)) (f m : List Nat)
    (h : g.last_error.length = GEARMAN_MAX_ERROR_SIZE) :
    (runSetErrors g (calls ++ [(f, m)])).last_error.length
      = GEARMAN_MAX_ERROR_SIZE ∧
    0 ∈ (runSetErrors g (calls ++ [(f, m)])).last_error ∧
    cstring (runSetErrors g (calls ++ [(f, m)])).last_error
      = (renderError f m).take (GEARMAN_MAX_ERROR_SIZE - 1) ∧
    (cstring (runSetErrors g (calls ++ [(f, m)])).last_error).length + 1
      ≤ GEARMAN_MAX_ERROR_SIZE := by
  rw [runSetErrors_append_single]
  refine ⟨set_error_length _ f m (runSetErrors_length calls g h),
          set_error_terminated _ f m, set_error_cstring _ f m, ?_⟩
  rw [set_error_cstring _ f m]
  have hle := List.length_take_le (GEARMAN_MAX_ERROR_SIZE - 1) (renderError f m)
  unfold GEARMAN_MAX_ERROR_SIZE at hle ⊢
  omega

/-- Witness for C8 at a concrete engine and a concrete two-call sequence. -/
theorem set_error_sequence_bounded_exact_witness :
    (runSetErrors initState ([([72], [105])] ++ [([69], [33])])).last_error.length
      = GEARMAN_MAX_ERROR_SIZE ∧
    0 ∈ (runSetErrors initState ([([72], [105])] ++ [([69], [33])])).last_error ∧
    cstring (runSetErrors initState
        ([([72], [105])] ++ [([69], [33])])).last_error
      = (renderError [69] [33]).take (GEARMAN_MAX_ERROR_SIZE - 1) ∧
    (cstring (runSetErrors initState
        ([([72], [105])] ++ [([69], [33])])).last_error).length + 1
      ≤ GEARMAN_MAX_ERROR_SIZE :=
  set_error_sequence_bounded_exact initState [([72], [105])] [69] [33]
    (by simp [initState])

/-- C9: `gearman_state_clone` produces an engine whose option flags, timeout,
verbosity threshold and callback registrations equal the source's, and whose
connection and packet collections are empty with both counts zero. -/
theorem clone_copies_config_empties_collections (b : Bool)
    (source : gearman_state_st) :
    (gearman_state_clone b source).options.dont_track_packets
      = source.options.dont_track_packets ∧
    (gearman_state_clone b source).options.non_blocking
      = source.options.non_blocking ∧
    (gearman_state_clone b source).options.stored_non_blocking
      = source.options.stored_non_blocking ∧
    (gearman_state_clone b source).timeout = source.timeout ∧
    (gearman_state_clone b source).verbose = source.verbose ∧
    (gearman_state_clone b source).log_fn = source.log_fn ∧
    (gearman_state_clone b source).log_context = source.log_context ∧
    (gearman_state_clone b source).event_watch_fn = source.event_watch_fn ∧
    (gearman_state_clone b source).event_watch_context
      = source.event_watch_context ∧
    (gearman_state_clone b source).workload_malloc_fn
      = source.workload_malloc_fn ∧
    (gearman_state_clone b source).workload_malloc_context
      = source.workload_malloc_context ∧
    (gearman_state_clone b source).workload_free_fn
      = source.workload_free_fn ∧
    (gearman_state_clone b source).workload_free_context
      = source.workload_free_context ∧
    (gearman_state_clone b source).con_list = [] ∧
    (gearman_state_clone b source).packet_list = [] ∧
    (gearman_state_clone b source).con_count = 0 ∧
    (gearman_state_clone b source).packet_count = 0 :=
  ⟨rfl, rfl, rfl, rfl, rfl, rfl, rfl, rfl, rfl, rfl, rfl, rfl, rfl, rfl,
   rfl, rfl, rfl⟩

/-- C10: `gearman_state_pop_non_blocking` does not modify the saved slot and
is idempotent: two consecutive pops leave the engine exactly as one pop does. -/
theorem pop_non_blocking_idempotent (g : gearman_state_st) :
    gearman_state_pop_non_blocking (gearman_state_pop_non_blocking g)
      = gearman_state_pop_non_blocking g ∧
    (gearman_state_pop_non_blocking g).options.stored_non_blocking
      = g.options.stored_non_blocking :=
  ⟨rfl, rfl⟩
